import Mathlib

/-!
Shallow embedding of the Progressive Disclosure Session Controller of the
LearnSor / Sterling VS Code extension (src/extension.js).

Conventions of the embedding:
* JS numbers that hold clock readings (`Date.now()`) are modelled as `Nat`.
  Where the source computes `currentTime - lastLevelTime` the values satisfy
  `lastLevelTime ≤ currentTime` in every run of interest; `Nat` subtraction
  saturates at `0`, which gives the same branch decisions as JS for the
  guard `(currentTime - lastLevelTime) < 60000` (a negative JS difference and
  a saturated `0` are both `< 60000`).
* `Array.prototype.findIndex` returns `-1` when no element matches, so the
  resolved level index is an `Int`; the session's `currentLevel` field is a
  `Nat` because it is initialised to `0` and only ever assigned a found
  (hence non-negative) index.
* JS truthiness tests on possibly-absent values (`lastLevelTime && …`,
  `parsed.level1 || …`) are modelled explicitly: an absent property is
  `Option.none`, the number `0` and the string `""` are falsy.
* The asynchronous worker call (`generateEducationalResponse`) is modelled by
  passing its outcome as an explicit parameter: the promise either resolves
  with the parsed worker payload or rejects with one of the failure kinds of
  the adapter (launch failure, timeout, non-zero exit, parse failure).
-/

/-- One entry of the `LEARNING_LEVELS` registry (id, title, description). -/
structure Level where
  id : String
  title : String
  description : String
deriving DecidableEq

/-- The `LEARNING_LEVELS` constant of src/extension.js (lines 7-11). -/
def LEARNING_LEVELS : List Level := [
  ⟨"concept", "🧠 Concept & Why", "High-level steps and reasoning (Level 1)"⟩,
  ⟨"how", "🔧 How (Implementation Hints)", "Guided implementation ideas (Level 2)"⟩,
  ⟨"code", "💾 Code (with blanks)", "Concrete code lines with blanks (Level 3)"⟩]

/-- JS `LEARNING_LEVELS.findIndex(l => l.id === requestedLevel)`: the index of
the first matching entry, `-1` when the id is unknown (extension.js line 104). -/
def levelIndexOf (requestedLevel : String) : Int :=
  match LEARNING_LEVELS.findIdx? (fun l => l.id == requestedLevel) with
  | some n => (n : Int)
  | none => -1

/-- JS array indexing `l[i]`: `undefined` (here `none`) for a negative or
out-of-range index. -/
def jsIndex {α : Type} (l : List α) (i : Int) : Option α :=
  if i < 0 then none else l.get? i.toNat

/-- The mutable `userProgress` record of src/extension.js (lines 14-19).
`levelTimestamps` is a JS object keyed by level index; an index that was never
written is absent. -/
structure UserProgress where
  currentLevel : Nat
  levelTimestamps : Nat → Option Nat
  selectedCode : String
  currentQuestion : String

/-- The initial `userProgress` value (extension.js lines 14-19). -/
def initialUserProgress : UserProgress :=
  { currentLevel := 0, levelTimestamps := fun _ => none,
    selectedCode := "", currentQuestion := "" }

/-- The controller's process-wide state: `userProgress` together with the
single-flight flag `isRequestInFlight` (extension.js line 22). -/
structure ControllerState where
  userProgress : UserProgress
  isRequestInFlight : Bool

/-- The parsed JSON payload produced by the Python worker: optional tier texts.
An absent or empty-string property is falsy in the JS `||` chains. -/
structure WorkerResult where
  level1 : Option String
  level2 : Option String
  level3 : Option String
  combined : Option String

/-- JS `o || fallback` for a possibly-absent string property: the property
itself when present and non-empty, otherwise the fallback. -/
def jsOrString (o : Option String) (fallback : String) : String :=
  match o with
  | some s => if s = "" then fallback else s
  | none => fallback

/-- The result-extraction switch of `generateEducationalResponse`
(extension.js lines 417-430), keyed on the requested level id. Note the case
labels `logical`, `pseudocode`, `functions`, `snippet`: none of them is an id
of `LEARNING_LEVELS`, so every id of the current registry takes the `default`
branch. -/
def extractTier (parsed : WorkerResult) (level : String) : String :=
  if level == "logical" || level == "pseudocode" then
    jsOrString parsed.level1 (jsOrString parsed.combined "No Level 1 output")
  else if level == "functions" then
    jsOrString parsed.level2 "No Level 2 output"
  else if level == "snippet" then
    jsOrString parsed.level3 "No Level 3 output"
  else
    jsOrString parsed.combined (jsOrString parsed.level1 "No output")

/-- The `target_level` mapping placed in the worker's stdin payload
(extension.js lines 443-450): registry id → worker tier key. -/
def targetLevelOf (level : String) : String :=
  if level == "concept" then "level1"
  else if level == "how" then "level2"
  else if level == "code" then "level3"
  else "level1"

/-- Outcome of one worker invocation, i.e. how the promise returned by
`generateEducationalResponse` settles (extension.js lines 268-477). All
failure kinds reject the promise and are handled by the same `.catch`. -/
inductive WorkerOutcome where
  | success (parsed : WorkerResult)
  | workerError (msg : String)
  | timeout
  | launchFailed (msg : String)
  | parseError (msg : String)

/-- Result of the synchronous gate of `handleLevelRequest`
(extension.js lines 107-173). -/
inductive GateResult where
  | busy
  | tooSoon (waitTime : Nat)
  | outOfOrder
  | proceed
deriving DecidableEq

/-- The dwell-time test of extension.js lines 127-129: when the timestamp of
the current level is present and truthy (non-zero) and less than 60000 ms old,
returns the wait in seconds, `Math.ceil((60000 - elapsed) / 1000)`; otherwise
`none`. For `0 ≤ elapsed < 60000` that ceiling equals
`(60000 - elapsed + 999) / 1000` in integer division. -/
def timingInfo (st : UserProgress) (currentTime : Nat) : Option Nat :=
  match st.levelTimestamps st.currentLevel with
  | none => none
  | some t =>
    if t ≠ 0 ∧ currentTime - t < 60000 then
      some ((60000 - (currentTime - t) + 999) / 1000)
    else none

/-- The three ordered synchronous checks of `handleLevelRequest`
(extension.js lines 107-173): single-flight, dwell timing (only for indices
above `currentLevel`), then the order check that admits re-access
(`levelIndex < currentLevel`), the current level, and the next level, and
blocks anything further ahead. -/
def gateLevelRequest (cs : ControllerState) (requestedLevel : String)
    (currentTime : Nat) : GateResult :=
  let levelIndex := levelIndexOf requestedLevel
  if cs.isRequestInFlight then GateResult.busy
  else
    match (if (cs.userProgress.currentLevel : Int) < levelIndex then
        timingInfo cs.userProgress currentTime
      else none) with
    | some w => GateResult.tooSoon w
    | none =>
      if levelIndex < (cs.userProgress.currentLevel : Int) then GateResult.proceed
      else if levelIndex = (cs.userProgress.currentLevel : Int) then GateResult.proceed
      else if levelIndex = (cs.userProgress.currentLevel : Int) + 1 then GateResult.proceed
      else GateResult.outOfOrder

/-- What the controller posts back to the webview for one level request. The
three `blocked…` forms are the rejections before the worker is called;
`served` is the success path (`showResponse` with the level title and
`canProceed`); `failedAfterInvoke` is the `.catch` path reached after the
worker was started. -/
inductive LevelOutcomePost where
  | blockedBusy
  | blockedTooSoon (waitTime : Nat)
  | blockedOutOfOrder
  | served (response : String) (levelTitle : String) (canProceed : Bool)
  | failedAfterInvoke (message : String)
deriving DecidableEq

/-- Whether the worker was actually started for this outcome. -/
def workerInvoked : LevelOutcomePost → Bool
  | LevelOutcomePost.served _ _ _ => true
  | LevelOutcomePost.failedAfterInvoke _ => true
  | _ => false

/-- `isRequestInFlight = true`, the assignment of extension.js line 187
performed right before the worker call. -/
def admittedState (cs : ControllerState) : ControllerState :=
  { cs with isRequestInFlight := true }

/-- Settlement of an admitted request: the `.then` / `.catch` / `.finally`
chain of extension.js lines 189-238. On success, progress is updated when
`levelIndex >= currentLevel` (lines 193-197) using `currentTime`, the clock
reading captured at line 105 when the request was handled; then the response
is posted with `LEARNING_LEVELS[levelIndex].title` (line 202) — for an
unresolved id (`levelIndex = -1`) this title access throws a TypeError that
the `.catch` turns into an error post. The `.finally` clears the flag on
every path. -/
def settleLevelRequest (cs : ControllerState) (requestedLevel : String)
    (currentTime : Nat) (outcome : WorkerOutcome) : ControllerState × LevelOutcomePost :=
  let levelIndex := levelIndexOf requestedLevel
  match outcome with
  | WorkerOutcome.success parsed =>
    let st := cs.userProgress
    let st' := if (st.currentLevel : Int) ≤ levelIndex then
        { st with currentLevel := levelIndex.toNat,
                  levelTimestamps := fun j =>
                    if j = levelIndex.toNat then some currentTime
                    else st.levelTimestamps j }
      else st
    match jsIndex LEARNING_LEVELS levelIndex with
    | some lvl =>
      ({ userProgress := st', isRequestInFlight := false },
       LevelOutcomePost.served (extractTier parsed requestedLevel) lvl.title
         (decide (levelIndex < (LEARNING_LEVELS.length : Int) - 1)))
    | none =>
      ({ userProgress := st', isRequestInFlight := false },
       LevelOutcomePost.failedAfterInvoke "TypeError: cannot read title of undefined")
  | WorkerOutcome.workerError msg =>
    ({ cs with isRequestInFlight := false }, LevelOutcomePost.failedAfterInvoke msg)
  | WorkerOutcome.timeout =>
    ({ cs with isRequestInFlight := false },
     LevelOutcomePost.failedAfterInvoke "Python timed out after 45s")
  | WorkerOutcome.launchFailed msg =>
    ({ cs with isRequestInFlight := false }, LevelOutcomePost.failedAfterInvoke msg)
  | WorkerOutcome.parseError msg =>
    ({ cs with isRequestInFlight := false }, LevelOutcomePost.failedAfterInvoke msg)

/-- `handleLevelRequest` (extension.js lines 102-239): the synchronous gate,
then on admission the flag is set and the worker invoked; `outcome` is how
that invocation settles. The second clock argument models the wall-clock
reading at the moment the promise settles; the source never reads the clock
again after line 105, so that parameter is unused by the code. -/
def handleLevelRequest (cs : ControllerState) (requestedLevel : String)
    (currentTime _completionTime : Nat) (outcome : WorkerOutcome) :
    ControllerState × LevelOutcomePost :=
  match gateLevelRequest cs requestedLevel currentTime with
  | GateResult.busy => (cs, LevelOutcomePost.blockedBusy)
  | GateResult.tooSoon w => (cs, LevelOutcomePost.blockedTooSoon w)
  | GateResult.outOfOrder => (cs, LevelOutcomePost.blockedOutOfOrder)
  | GateResult.proceed =>
    settleLevelRequest (admittedState cs) requestedLevel currentTime outcome

/-- The arguments with which `handleFollowUpQuestion` calls the worker. -/
structure WorkerCall where
  question : String
  level : String
deriving DecidableEq

/-- The fixed brevity suffix appended to every follow-up question
(extension.js line 251). -/
def enhanceFollowUp (q : String) : String :=
  q ++ "\n\n[Keep response short and focused - 3-4 sentences maximum]"

/-- `handleFollowUpQuestion` (extension.js lines 241-266): reads
`LEARNING_LEVELS[userProgress.currentLevel].id` (a TypeError before any worker
call when the index is out of range, hence `none`), appends the brevity
instruction to the question and calls the worker with the current level id as
context. It neither reads nor writes `isRequestInFlight` and mutates no
session state on any outcome, so the controller state is returned unchanged;
the second component is the worker call that is issued. -/
def handleFollowUpQuestion (cs : ControllerState) (followUpQuestion : String) :
    ControllerState × Option WorkerCall :=
  match jsIndex LEARNING_LEVELS (cs.userProgress.currentLevel : Int) with
  | none => (cs, none)
  | some lvl => (cs, some ⟨enhanceFollowUp followUpQuestion, lvl.id⟩)

/-- The `learnsor.askQuestion` command body (extension.js lines 27-65): with a
non-empty selection, progress is fully reset when the selected text differs
from the bound one (lines 46-54); afterwards a non-empty question is stored
in `currentQuestion` (line 62, skipped when the input box is dismissed). -/
def handleNewSelection (cs : ControllerState) (selectedText question : String) :
    ControllerState :=
  if selectedText = "" then cs
  else
    let st := if selectedText ≠ cs.userProgress.selectedCode then
        { currentLevel := 0, levelTimestamps := fun _ => none,
          selectedCode := selectedText, currentQuestion := "" }
      else cs.userProgress
    let st' := if question = "" then st else { st with currentQuestion := question }
    { cs with userProgress := st' }

/-- The external events the controller reacts to. -/
inductive Event where
  | levelRequest (requestedLevel : String) (currentTime completionTime : Nat)
      (outcome : WorkerOutcome)
  | followUp (question : String)
  | newSelection (selectedText question : String)

/-- State transition of the controller for one event. -/
def step (cs : ControllerState) : Event → ControllerState
  | Event.levelRequest req now cnow outcome => (handleLevelRequest cs req now cnow outcome).1
  | Event.followUp q => (handleFollowUpQuestion cs q).1
  | Event.newSelection c q => handleNewSelection cs c q

/-! Concrete states used by counterexamples and witnesses. -/

/-- A freshly activated controller: initial progress, no request in flight. -/
def csFresh : ControllerState :=
  { userProgress := initialUserProgress, isRequestInFlight := false }

/-- A controller with a worker invocation outstanding. -/
def csBusy : ControllerState :=
  { userProgress := initialUserProgress, isRequestInFlight := true }

/-- Level 0 served at time 1000; its dwell window is still open shortly after. -/
def csDwell : ControllerState :=
  { userProgress :=
      { currentLevel := 0,
        levelTimestamps := fun j => if j = 0 then some 1000 else none,
        selectedCode := "sel", currentQuestion := "q" },
    isRequestInFlight := false }

/-- Level 0 served at time 1; its dwell window has long expired at the times
used below. -/
def csReady : ControllerState :=
  { userProgress :=
      { currentLevel := 0,
        levelTimestamps := fun j => if j = 0 then some 1 else none,
        selectedCode := "sel", currentQuestion := "q" },
    isRequestInFlight := false }

/-- A session that has progressed to level 1 on code "old". -/
def csLevel1 : ControllerState :=
  { userProgress :=
      { currentLevel := 1,
        levelTimestamps := fun j => if j = 0 then some 1 else none,
        selectedCode := "old", currentQuestion := "q" },
    isRequestInFlight := false }

/-- A worker payload with all three tier texts present and no combined text. -/
def wrSample : WorkerResult :=
  { level1 := some "A", level2 := some "B", level3 := some "C", combined := none }

/-! Helper lemmas shared by several theorems. -/

/-- Settling an admitted request clears the in-flight flag on every outcome. -/
theorem settle_isRequestInFlight (cs : ControllerState) (req : String)
    (now : Nat) (outcome : WorkerOutcome) :
    (settleLevelRequest cs req now outcome).1.isRequestInFlight = false := by
  unfold settleLevelRequest
  cases outcome with
  | success parsed => dsimp only; split <;> rfl
  | workerError msg => rfl
  | timeout => rfl
  | launchFailed msg => rfl
  | parseError msg => rfl

/-- Follow-up handling never changes the controller state. -/
theorem followUp_state_unchanged (cs : ControllerState) (q : String) :
    (handleFollowUpQuestion cs q).1 = cs := by
  unfold handleFollowUpQuestion
  split <;> rfl

/-- Gate evaluation for a request strictly above the current level: the dwell
test runs first; if it does not block, only the immediate next index is
admitted. -/
theorem gate_above_current (cs : ControllerState) (req : String) (now : Nat)
    (hflag : cs.isRequestInFlight = false)
    (habove : (cs.userProgress.currentLevel : Int) < levelIndexOf req) :
    gateLevelRequest cs req now =
      (match timingInfo cs.userProgress now with
       | some w => GateResult.tooSoon w
       | none =>
         if levelIndexOf req = (cs.userProgress.currentLevel : Int) + 1 then
           GateResult.proceed
         else GateResult.outOfOrder) := by
  unfold gateLevelRequest
  rw [hflag]
  simp only [Bool.false_eq_true, if_false, if_pos habove]
  cases hti : timingInfo cs.userProgress now with
  | some w => rfl
  | none =>
    have h1 : ¬ levelIndexOf req < (cs.userProgress.currentLevel : Int) := by omega
    have h2 : ¬ levelIndexOf req = (cs.userProgress.currentLevel : Int) := by omega
    rw [if_neg h1, if_neg h2]

/-- C2: a request for index `currentLevelIndex + 1` issued while the dwell
window of the current level is still open (a positive timestamp recorded, and
`elapsed = now - t < 60000`) is rejected as TOO_SOON carrying exactly
`ceil((60000 - elapsed) / 1000)` seconds of remaining wait, and the session
state is returned untouched. -/
theorem tooSoon_carries_ceil_wait (cs : ControllerState) (req : String)
    (now cnow t : Nat) (outcome : WorkerOutcome)
    (hflag : cs.isRequestInFlight = false)
    (hts : cs.userProgress.levelTimestamps cs.userProgress.currentLevel = some t)
    (htpos : 0 < t) (_hle : t ≤ now) (helapsed : now - t < 60000)
    (hreq : levelIndexOf req = (cs.userProgress.currentLevel : Int) + 1) :
    handleLevelRequest cs req now cnow outcome =
      (cs, LevelOutcomePost.blockedTooSoon ((60000 - (now - t)) ⌈/⌉ 1000)) := by
  have hti : timingInfo cs.userProgress now =
      some ((60000 - (now - t)) ⌈/⌉ 1000) := by
    have hcd : (60000 - (now - t)) ⌈/⌉ 1000 = (60000 - (now - t) + 999) / 1000 := by
      rw [Nat.ceilDiv_eq_add_pred_div]
      congr 1
    unfold timingInfo
    rw [hts]
    dsimp only
    rw [if_pos ⟨by omega, helapsed⟩, hcd]
  have hgate : gateLevelRequest cs req now =
      GateResult.tooSoon ((60000 - (now - t)) ⌈/⌉ 1000) := by
    rw [gate_above_current cs req now hflag (by omega), hti]
  unfold handleLevelRequest
  rw [hgate]

/-- C2 witness: in `csDwell` (level 0 unlocked at 1000) a request for level 1
at time 31000 is rejected with a 30 second remaining wait. -/
theorem tooSoon_carries_ceil_wait_witness :
    handleLevelRequest csDwell "how" 31000 31000 WorkerOutcome.timeout =
      (csDwell, LevelOutcomePost.blockedTooSoon 30) :=
  tooSoon_carries_ceil_wait csDwell "how" 31000 31000 1000 WorkerOutcome.timeout
    rfl rfl (by decide) (by decide) (by decide) (by decide)

/-- C6: once the gate admits a request, the single-flight flag is raised
before the worker invocation and the state after settlement has the flag
cleared on every one of the five outcomes, so a later request passes the
busy check again. -/
theorem admission_flag_guaranteed_release (cs : ControllerState) (req : String)
    (now cnow : Nat) (outcome : WorkerOutcome)
    (h : gateLevelRequest cs req now = GateResult.proceed) :
    (admittedState cs).isRequestInFlight = true ∧
    (handleLevelRequest cs req now cnow outcome).1.isRequestInFlight = false := by
  refine ⟨rfl, ?_⟩
  unfold handleLevelRequest
  rw [h]
  exact settle_isRequestInFlight _ _ _ _

/-- C6 witness: the first level request of a fresh session is admitted, and
even when the worker times out the flag ends cleared. -/
theorem admission_flag_guaranteed_release_witness :
    (admittedState csFresh).isRequestInFlight = true ∧
    (handleLevelRequest csFresh "concept" 0 0 WorkerOutcome.timeout).1.isRequestInFlight = false :=
  admission_flag_guaranteed_release csFresh "concept" 0 0 WorkerOutcome.timeout (by decide)

/-- C9 (code bug): the stdin payload maps the registry id `how` to the worker
tier `level2`, but the result-extraction switch has no case for `how` (its
cases name the ids of an older registry), so with all three tier texts present
a `how` request returns the tier-1 text `A` instead of the tier-2 text `B`,
and a `code` request also returns `A` instead of the tier-3 text `C`. -/
theorem router_stale_ids_bug :
    targetLevelOf "how" = "level2" ∧
    extractTier wrSample "how" = "A" ∧
    ¬ extractTier wrSample "how" = "B" ∧
    extractTier wrSample "code" = "A" ∧
    ¬ extractTier wrSample "code" = "C" :=
  ⟨rfl, rfl, by decide, rfl, by decide⟩

/-- C10: the question forwarded to the worker for a follow-up is the user's
question with the fixed brevity instruction appended (hence never the
verbatim question), and the level id passed as context is the id of the
session's current unlocked level. -/
theorem followUp_brevity_suffix (cs : ControllerState) (q : String)
    (h : cs.userProgress.currentLevel < LEARNING_LEVELS.length) :
    (handleFollowUpQuestion cs q).2 =
      some ⟨q ++ "\n\n[Keep response short and focused - 3-4 sentences maximum]",
            (LEARNING_LEVELS.get ⟨cs.userProgress.currentLevel, h⟩).id⟩ ∧
    q ++ "\n\n[Keep response short and focused - 3-4 sentences maximum]" ≠ q := by
  have hj : jsIndex LEARNING_LEVELS (cs.userProgress.currentLevel : Int) =
      some (LEARNING_LEVELS.get ⟨cs.userProgress.currentLevel, h⟩) := by
    unfold jsIndex
    rw [if_neg (by omega), Int.toNat_natCast, List.get?_eq_get h]
  constructor
  · unfold handleFollowUpQuestion
    rw [hj]
    rfl
  · intro hq
    have hlen := congrArg String.length hq
    rw [String.length_append] at hlen
    have hpos :
        0 < ("\n\n[Keep response short and focused - 3-4 sentences maximum]").length := by
      decide
    omega

/-- C10 witness: a follow-up "why" in a fresh session forwards the enhanced
question with level id `concept`. -/
theorem followUp_brevity_suffix_witness :
    (handleFollowUpQuestion csFresh "why").2 =
      some ⟨"why" ++ "\n\n[Keep response short and focused - 3-4 sentences maximum]",
            (LEARNING_LEVELS.get ⟨csFresh.userProgress.currentLevel, by decide⟩).id⟩ ∧
    "why" ++ "\n\n[Keep response short and focused - 3-4 sentences maximum]" ≠ "why" :=
  followUp_brevity_suffix csFresh "why" (by decide)

/-- C1 counterexample: in `csDwell` level 2 is two steps ahead of the current
level 0, yet at time 2000 (inside the dwell window of level 0) the request is
rejected as TOO_SOON with a 59 second wait, not as OUT_OF_ORDER — the dwell
check runs before the order check. -/
theorem skipAhead_tooSoon_counterexample :
    (handleLevelRequest csDwell "code" 2000 2000 WorkerOutcome.timeout).2 =
      LevelOutcomePost.blockedTooSoon 59 ∧
    ¬ (handleLevelRequest csDwell "code" 2000 2000 WorkerOutcome.timeout).2 =
      LevelOutcomePost.blockedOutOfOrder :=
  ⟨by decide, by decide⟩

/-- C3 counterexample: with a request in flight (`csBusy`), a follow-up is
not rejected as BUSY — the worker is invoked with the enhanced question. -/
theorem followUp_not_busy_gated_counterexample :
    csBusy.isRequestInFlight = true ∧
    (handleFollowUpQuestion csBusy "q").2 =
      some ⟨"q\n\n[Keep response short and focused - 3-4 sentences maximum]",
            "concept"⟩ :=
  ⟨rfl, by decide⟩

/-- C4 counterexample: the unknown id `bogus` resolves to index `-1`, passes
the gate (it is treated as a re-access of a previous level) and the worker is
invoked — there is no UNKNOWN_LEVEL rejection before the worker. -/
theorem unknown_level_reaches_worker_counterexample :
    gateLevelRequest csFresh "bogus" 5 = GateResult.proceed ∧
    workerInvoked
      (handleLevelRequest csFresh "bogus" 5 5 (WorkerOutcome.success wrSample)).2 = true :=
  ⟨by decide, by decide⟩

/-- C7 counterexample: in `csReady` a successful request for level 1 handled
at time 100000 whose worker call completes at time 200000 records timestamp
100000 (the time captured when the request was handled), not the completion
time 200000. -/
theorem timestamp_request_time_counterexample :
    (handleLevelRequest csReady "how" 100000 200000
        (WorkerOutcome.success wrSample)).1.userProgress.levelTimestamps 1 =
      some 100000 ∧
    ¬ (handleLevelRequest csReady "how" 100000 200000
        (WorkerOutcome.success wrSample)).1.userProgress.levelTimestamps 1 =
      some 200000 :=
  ⟨by decide, by decide⟩

/-- C8 counterexample: in `csFresh` no timestamp exists for the current level
0, yet a request for level 1 reaches the worker and on success raises
`currentLevel` to 1 — the absent timestamp disables the dwell check instead
of blocking advancement. -/
theorem missing_timestamp_advances_counterexample :
    workerInvoked
      (handleLevelRequest csFresh "how" 5 5 (WorkerOutcome.success wrSample)).2 = true ∧
    (handleLevelRequest csFresh "how" 5 5
        (WorkerOutcome.success wrSample)).1.userProgress.currentLevel = 1 :=
  ⟨by decide, by decide⟩

/-- C1 (amended): a request more than one step ahead of the current level is
never served — but the dwell check runs first, so when the current level's
window is still open the rejection is TOO_SOON; only otherwise is it
OUT_OF_ORDER. In both cases the state is untouched and the worker is not
invoked. -/
theorem skipAhead_rejected_amended (cs : ControllerState) (req : String)
    (now cnow : Nat) (outcome : WorkerOutcome)
    (hflag : cs.isRequestInFlight = false)
    (hfar : (cs.userProgress.currentLevel : Int) + 1 < levelIndexOf req) :
    handleLevelRequest cs req now cnow outcome =
      (cs, (match timingInfo cs.userProgress now with
        | some w => LevelOutcomePost.blockedTooSoon w
        | none => LevelOutcomePost.blockedOutOfOrder)) ∧
    workerInvoked (handleLevelRequest cs req now cnow outcome).2 = false := by
  have hgate := gate_above_current cs req now hflag (by omega)
  rw [if_neg (show ¬ levelIndexOf req = (cs.userProgress.currentLevel : Int) + 1
    by omega)] at hgate
  have heq : handleLevelRequest cs req now cnow outcome =
      (cs, (match timingInfo cs.userProgress now with
        | some w => LevelOutcomePost.blockedTooSoon w
        | none => LevelOutcomePost.blockedOutOfOrder)) := by
    unfold handleLevelRequest
    rw [hgate]
    cases timingInfo cs.userProgress now with
    | some w => rfl
    | none => rfl
  refine ⟨heq, ?_⟩
  rw [heq]
  cases timingInfo cs.userProgress now with
  | some w => rfl
  | none => rfl

/-- C1 witness: in `csReady` (dwell window long expired) a request two levels
ahead is rejected OUT_OF_ORDER with no worker invocation. -/
theorem skipAhead_rejected_amended_witness :
    handleLevelRequest csReady "code" 100000 100000 WorkerOutcome.timeout =
      (csReady, (match timingInfo csReady.userProgress 100000 with
        | some w => LevelOutcomePost.blockedTooSoon w
        | none => LevelOutcomePost.blockedOutOfOrder)) ∧
    workerInvoked
      (handleLevelRequest csReady "code" 100000 100000 WorkerOutcome.timeout).2 = false :=
  skipAhead_rejected_amended csReady "code" 100000 100000 WorkerOutcome.timeout
    rfl (by decide)

/-- C3 (amended): while the single-flight flag is set, a level request is
rejected BUSY with no state change and no worker invocation; a follow-up is
not gated by the flag — it still issues its worker call and leaves the state
unchanged. -/
theorem busy_gating_amended (cs : ControllerState) (req q : String)
    (now cnow : Nat) (outcome : WorkerOutcome)
    (h : cs.isRequestInFlight = true)
    (hlt : cs.userProgress.currentLevel < LEARNING_LEVELS.length) :
    handleLevelRequest cs req now cnow outcome = (cs, LevelOutcomePost.blockedBusy) ∧
    workerInvoked (handleLevelRequest cs req now cnow outcome).2 = false ∧
    (handleFollowUpQuestion cs q).1 = cs ∧
    ((handleFollowUpQuestion cs q).2).isSome = true := by
  have hgate : gateLevelRequest cs req now = GateResult.busy := by
    unfold gateLevelRequest
    rw [h]
    rfl
  have heq : handleLevelRequest cs req now cnow outcome =
      (cs, LevelOutcomePost.blockedBusy) := by
    unfold handleLevelRequest
    rw [hgate]
  refine ⟨heq, by rw [heq]; rfl, followUp_state_unchanged cs q, ?_⟩
  unfold handleFollowUpQuestion jsIndex
  rw [if_neg (show ¬ ((cs.userProgress.currentLevel : Int) < 0) by omega),
    Int.toNat_natCast, List.get?_eq_get hlt]
  rfl

/-- C3 witness: with the flag set, a level request is blocked BUSY while a
follow-up still reaches the worker. -/
theorem busy_gating_amended_witness :
    handleLevelRequest csBusy "concept" 0 0 WorkerOutcome.timeout =
      (csBusy, LevelOutcomePost.blockedBusy) ∧
    workerInvoked
      (handleLevelRequest csBusy "concept" 0 0 WorkerOutcome.timeout).2 = false ∧
    (handleFollowUpQuestion csBusy "q2").1 = csBusy ∧
    ((handleFollowUpQuestion csBusy "q2").2).isSome = true :=
  busy_gating_amended csBusy "concept" "q2" 0 0 WorkerOutcome.timeout rfl (by decide)

/-- C4 (amended): an id absent from the registry resolves to index `-1`; the
request is never rejected as UNKNOWN_LEVEL — the gate admits it as a
re-access of a previous level and the worker is invoked; session progress is
not mutated on any outcome and the flag ends cleared (on worker success the
response construction itself fails on the undefined level title). -/
theorem unknown_level_admitted_amended (cs : ControllerState) (req : String)
    (now cnow : Nat) (outcome : WorkerOutcome)
    (hflag : cs.isRequestInFlight = false)
    (hreq : levelIndexOf req = -1) :
    gateLevelRequest cs req now = GateResult.proceed ∧
    workerInvoked (handleLevelRequest cs req now cnow outcome).2 = true ∧
    (handleLevelRequest cs req now cnow outcome).1.userProgress = cs.userProgress ∧
    (handleLevelRequest cs req now cnow outcome).1.isRequestInFlight = false := by
  have hgate : gateLevelRequest cs req now = GateResult.proceed := by
    unfold gateLevelRequest
    rw [hflag]
    simp only [Bool.false_eq_true, if_false, hreq]
    rw [if_neg (show ¬ ((cs.userProgress.currentLevel : Int) < -1) by omega)]
    dsimp only
    rw [if_pos (show (-1 : Int) < (cs.userProgress.currentLevel : Int) by omega)]
  have hs : handleLevelRequest cs req now cnow outcome =
      settleLevelRequest (admittedState cs) req now outcome := by
    unfold handleLevelRequest
    rw [hgate]
  have hj : jsIndex LEARNING_LEVELS (-1 : Int) = none := rfl
  refine ⟨hgate, ?_, ?_, ?_⟩ <;> rw [hs] <;>
    unfold settleLevelRequest <;>
    cases outcome with
  | _ =>
    first
    | rfl
    | (dsimp only
       simp only [hreq]
       rw [if_neg (show ¬ (((admittedState cs).userProgress.currentLevel : Int) ≤ -1)
         by omega), hj]
       try rfl)

/-- C4 witness: the unknown id `bogus` is admitted in a fresh session, the
worker runs (here timing out), progress is untouched, flag cleared. -/
theorem unknown_level_admitted_amended_witness :
    gateLevelRequest csFresh "bogus" 5 = GateResult.proceed ∧
    workerInvoked (handleLevelRequest csFresh "bogus" 5 5 WorkerOutcome.timeout).2 = true ∧
    (handleLevelRequest csFresh "bogus" 5 5 WorkerOutcome.timeout).1.userProgress =
      csFresh.userProgress ∧
    (handleLevelRequest csFresh "bogus" 5 5 WorkerOutcome.timeout).1.isRequestInFlight =
      false :=
  unknown_level_admitted_amended csFresh "bogus" 5 5 WorkerOutcome.timeout rfl (by decide)

/-- C7 (amended): on worker success of an admitted request resolving to a
registry index `i ≥ currentLevel`, the timestamp of `i` is set to the clock
reading captured when the request was handled — not the completion time of
the worker call — `currentLevel` becomes `i`, and the response carries
`canProceed = (i < levelCount - 1)`, false exactly on the last level. -/
theorem success_updates_amended (cs : ControllerState) (req : String)
    (i now cnow : Nat) (parsed : WorkerResult)
    (hgate : gateLevelRequest cs req now = GateResult.proceed)
    (hidx : levelIndexOf req = (i : Int))
    (hge : cs.userProgress.currentLevel ≤ i)
    (hlt : i < LEARNING_LEVELS.length) :
    (handleLevelRequest cs req now cnow
        (WorkerOutcome.success parsed)).1.userProgress.currentLevel = i ∧
    (handleLevelRequest cs req now cnow
        (WorkerOutcome.success parsed)).1.userProgress.levelTimestamps i = some now ∧
    (handleLevelRequest cs req now cnow (WorkerOutcome.success parsed)).2 =
      LevelOutcomePost.served (extractTier parsed req)
        (LEARNING_LEVELS.get ⟨i, hlt⟩).title
        (decide ((i : Int) < (LEARNING_LEVELS.length : Int) - 1)) := by
  have hj : jsIndex LEARNING_LEVELS (i : Int) =
      some (LEARNING_LEVELS.get ⟨i, hlt⟩) := by
    unfold jsIndex
    rw [if_neg (show ¬ ((i : Int) < 0) by omega), Int.toNat_natCast,
      List.get?_eq_get hlt]
  have hs : handleLevelRequest cs req now cnow (WorkerOutcome.success parsed) =
      settleLevelRequest (admittedState cs) req now (WorkerOutcome.success parsed) := by
    unfold handleLevelRequest
    rw [hgate]
  rw [hs]
  unfold settleLevelRequest
  dsimp only
  simp only [hidx]
  rw [if_pos (show (((admittedState cs).userProgress.currentLevel : Int) ≤ (i : Int))
    by exact_mod_cast hge)]
  rw [hj]
  refine ⟨?_, ?_, ?_⟩
  · dsimp only
    rw [Int.toNat_natCast]
  · dsimp only
    rw [Int.toNat_natCast]
    rw [if_pos rfl]
  · rfl

/-- C7 witness: in `csReady` a successful request for level 1 handled at time
100000 sets `currentLevel = 1`, stamps 100000, and yields `canProceed`. -/
theorem success_updates_amended_witness :
    (handleLevelRequest csReady "how" 100000 100000
        (WorkerOutcome.success wrSample)).1.userProgress.currentLevel = 1 ∧
    (handleLevelRequest csReady "how" 100000 100000
        (WorkerOutcome.success wrSample)).1.userProgress.levelTimestamps 1 =
      some 100000 ∧
    (handleLevelRequest csReady "how" 100000 100000 (WorkerOutcome.success wrSample)).2 =
      LevelOutcomePost.served (extractTier wrSample "how")
        (LEARNING_LEVELS.get ⟨1, by decide⟩).title
        (decide ((1 : Int) < (LEARNING_LEVELS.length : Int) - 1)) :=
  success_updates_amended csReady "how" 1 100000 100000 wrSample (by decide) (by decide)
    (by decide) (by decide)

/-- C8 (amended): when no timestamp is recorded for the current level, the
dwell check is skipped rather than treated as unbounded: a request for
`currentLevel + 1` is admitted, the worker is invoked, and on success
`currentLevel` is raised by one. -/
theorem missing_timestamp_skips_dwell_amended (cs : ControllerState) (req : String)
    (now cnow : Nat) (outcome : WorkerOutcome) (parsed : WorkerResult)
    (hflag : cs.isRequestInFlight = false)
    (hts : cs.userProgress.levelTimestamps cs.userProgress.currentLevel = none)
    (hreq : levelIndexOf req = (cs.userProgress.currentLevel : Int) + 1) :
    gateLevelRequest cs req now = GateResult.proceed ∧
    workerInvoked (handleLevelRequest cs req now cnow outcome).2 = true ∧
    (handleLevelRequest cs req now cnow
        (WorkerOutcome.success parsed)).1.userProgress.currentLevel =
      cs.userProgress.currentLevel + 1 := by
  have hti : timingInfo cs.userProgress now = none := by
    unfold timingInfo
    rw [hts]
  have hgate : gateLevelRequest cs req now = GateResult.proceed := by
    rw [gate_above_current cs req now hflag (by omega), hti]
    dsimp only
    rw [if_pos hreq]
  refine ⟨hgate, ?_, ?_⟩
  · unfold handleLevelRequest
    rw [hgate]
    unfold settleLevelRequest
    cases outcome with
    | success p =>
      dsimp only
      split
      · split <;> rfl
      · split <;> rfl
    | workerError msg => rfl
    | timeout => rfl
    | launchFailed msg => rfl
    | parseError msg => rfl
  · unfold handleLevelRequest
    rw [hgate]
    unfold settleLevelRequest
    dsimp only
    simp only [hreq]
    rw [show (admittedState cs).userProgress = cs.userProgress from rfl]
    rw [if_pos (show ((cs.userProgress.currentLevel : Int) ≤
      (cs.userProgress.currentLevel : Int) + 1) by omega)]
    split
    · dsimp only
      omega
    · dsimp only
      omega

/-- C8 witness: in a fresh session (no timestamp for level 0) a request for
level 1 is admitted, reaches the worker, and success raises the level to 1. -/
theorem missing_timestamp_skips_dwell_amended_witness :
    gateLevelRequest csFresh "how" 5 = GateResult.proceed ∧
    workerInvoked (handleLevelRequest csFresh "how" 5 5 WorkerOutcome.timeout).2 = true ∧
    (handleLevelRequest csFresh "how" 5 5
        (WorkerOutcome.success wrSample)).1.userProgress.currentLevel =
      csFresh.userProgress.currentLevel + 1 :=
  missing_timestamp_skips_dwell_amended csFresh "how" 5 5 WorkerOutcome.timeout wrSample
    rfl rfl (by decide)

/-- C5: across level requests and follow-ups `currentLevel` never decreases;
the only transition that lowers it is a new-selection event carrying code
different from the session's bound code, and that transition resets the level
to 0 and clears all timestamps. -/
theorem currentLevel_monotone_except_reset (cs : ControllerState) (e : Event)
    (h : (step cs e).userProgress.currentLevel < cs.userProgress.currentLevel) :
    ∃ c q, e = Event.newSelection c q ∧ c ≠ cs.userProgress.selectedCode ∧
      (step cs e).userProgress.currentLevel = 0 ∧
      (step cs e).userProgress.levelTimestamps = (fun _ => none) := by
  cases e with
  | levelRequest req now cnow outcome =>
    exfalso
    have hmono : cs.userProgress.currentLevel ≤
        (handleLevelRequest cs req now cnow outcome).1.userProgress.currentLevel := by
      unfold handleLevelRequest
      cases gateLevelRequest cs req now with
      | busy => exact le_refl _
      | tooSoon w => exact le_refl _
      | outOfOrder => exact le_refl _
      | proceed =>
        unfold settleLevelRequest
        cases outcome with
        | success parsed =>
          dsimp only
          rw [show (admittedState cs).userProgress = cs.userProgress from rfl]
          split
          · split <;> (dsimp only; omega)
          · split <;> (dsimp only; omega)
        | workerError msg => exact le_refl _
        | timeout => exact le_refl _
        | launchFailed msg => exact le_refl _
        | parseError msg => exact le_refl _
    simp only [step] at h
    omega
  | followUp q =>
    exfalso
    simp only [step, followUp_state_unchanged] at h
    exact absurd h (lt_irrefl _)
  | newSelection c q =>
    simp only [step, handleNewSelection] at h ⊢
    by_cases hempty : c = ""
    · rw [if_pos hempty] at h
      exact absurd h (lt_irrefl _)
    · rw [if_neg hempty] at h ⊢
      by_cases hcode : c ≠ cs.userProgress.selectedCode
      · rw [if_pos hcode] at h ⊢
        refine ⟨c, q, rfl, hcode, ?_, ?_⟩
        · by_cases hq : q = ""
          · rw [if_pos hq]
          · rw [if_neg hq]
        · by_cases hq : q = ""
          · rw [if_pos hq]
          · rw [if_neg hq]
      · exfalso
        rw [if_neg hcode] at h
        by_cases hq : q = ""
        · rw [if_pos hq] at h
          exact absurd h (lt_irrefl _)
        · rw [if_neg hq] at h
          exact absurd h (lt_irrefl _)

/-- C5 witness: a new selection with different code lowers the level from 1 to
0, clearing timestamps. -/
theorem currentLevel_monotone_except_reset_witness :
    ∃ c q, Event.newSelection "new" "q2" = Event.newSelection c q ∧
      c ≠ csLevel1.userProgress.selectedCode ∧
      (step csLevel1 (Event.newSelection "new" "q2")).userProgress.currentLevel = 0 ∧
      (step csLevel1 (Event.newSelection "new" "q2")).userProgress.levelTimestamps =
        (fun _ => none) :=
  currentLevel_monotone_except_reset csLevel1 (Event.newSelection "new" "q2") (by decide)
